import Mathlib

/-!
Shallow embedding of the DART financial-statement preprocessing engine
(`app/preprocessing/dart_finance_preprocessing.py`) and proofs about it.

Strings model Python `str` values; absent (None / NaN) amount cells are
modelled as `Option String`.  Python exceptions that escape a function are
modelled by `Except PyExc`; exceptions that the source catches and maps to a
sentinel are folded into the returned value, exactly as the source does.
-/

set_option autoImplicit false

namespace DartFinance

/-- Python exceptions that can escape the embedded functions. -/
inductive PyExc where
  | assertionError
  | nameError
  | unboundLocalError
  | indexOrKeyError
  | valueError
deriving Repr, DecidableEq

/-- One raw line item of the financial table (columns of `CollectDartFinancePydantic`
that the preprocessing reads).  The three period amounts may be absent. -/
structure Row where
  company_id : String
  bsns_year : String
  fs_div : String
  fs_nm : String
  sj_div : String
  account_nm : String
  account_id : String
  thstrm_nm : String
  thstrm_amount : Option String
  frmtrm_amount : Option String
  bfefrmtrm_amount : Option String
deriving Repr, DecidableEq

/-- Python slice `value[:-3]`: the first `length - 3` characters (empty when the
string has at most 3 characters). -/
def pySliceDropLast3 (s : String) : String :=
  String.mk (s.toList.take (s.toList.length - 3))

/-- `_preprocess_values` applied to a `str` value: `''` is falsy and maps to `''`,
otherwise `value[:-3]`. -/
def preprocessStr (s : String) : String :=
  if s = "" then "" else pySliceDropLast3 s

/-- `_preprocess_values`: `None` and `''` map to `''`, any other string is
truncated by three characters.  The source wraps this in try/except, but no
expression in the str branch can raise, so the embedding is total. -/
def preprocessValues : Option String → String
  | none => ""
  | some v => preprocessStr v

/-- Whether `s` matches the regex search `제\s+\d+\s+기$` used for `thstrm_nm`
(`period_label`): the string must end with 제, one or more whitespace
characters, one or more digits, one or more whitespace characters, 기.
Because the character classes are pairwise disjoint, matching maximal runs
from the end of the string is equivalent to the regex search. -/
def matchesPeriodPattern (s : String) : Bool :=
  match s.toList.reverse with
  | [] => false
  | c :: rest =>
    if c = '기' then
      let ws1 := rest.takeWhile Char.isWhitespace
      let r1 := rest.dropWhile Char.isWhitespace
      let ds := r1.takeWhile Char.isDigit
      let r2 := r1.dropWhile Char.isDigit
      let ws2 := r2.takeWhile Char.isWhitespace
      let r3 := r2.dropWhile Char.isWhitespace
      !ws1.isEmpty && !ds.isEmpty && !ws2.isEmpty && r3.head? == some '제'
    else false

/-- Python truthiness of an optional-string argument (`if account_id:`). -/
def optTruthy : Option String → Bool
  | none => false
  | some s => s != ""

/-- The row filter of `_search_values`: `cond1 & cond2 & cond3`.
`cond1` keys on `account_id` when that argument is truthy, else on
`account_nm`; `cond2` is the period-label pattern; `cond3` the statement
division.  Comparing a column against Python `None` yields `False` everywhere,
modelled by comparing with `some`-injected values. -/
def rowCond (account_nm account_id sj_div : Option String) (r : Row) : Bool :=
  (if optTruthy account_id then some r.account_id == account_id
   else some r.account_nm == account_nm)
  && matchesPeriodPattern r.thstrm_nm
  && some r.sj_div == sj_div

/-- `_search_values` with all three alternative lists empty (the shape of every
recursive fallback call in the source): take the first row passing the filter
and normalize its three period amounts, or `("", "", "")` when the filter
selects nothing (the `IndexError` path followed by the `finally` block). -/
def searchBase (df : List Row) (account_nm account_id sj_div : Option String) :
    String × String × String :=
  match df.find? (rowCond account_nm account_id sj_div) with
  | some r =>
      (preprocessValues r.thstrm_amount, preprocessValues r.frmtrm_amount,
       preprocessValues r.bfefrmtrm_amount)
  | none => ("", "", "")

/-- The `finally` block of `_search_values`: re-normalize whatever the three
local variables hold.  `none` models the initial `(None, None, None)` state. -/
def normTriple : Option (String × String × String) → String × String × String
  | none => ("", "", "")
  | some (a, b, c) => (preprocessStr a, preprocessStr b, preprocessStr c)

/-- The three fallback loops of `_search_values`, flattened over the ordered
candidate list.  Each candidate is the (already normalized) triple of a
recursive call; a candidate with a non-empty current-period amount is returned
early, and in either case the `finally` block normalizes once more. -/
def altLoop :
    Option (String × String × String) → List (String × String × String) →
      String × String × String
  | st, [] => normTriple st
  | _, t :: rest => if t.1 != "" then normTriple (some t) else altLoop (some t) rest

/-- The ordered candidate results of the three fallback loops of
`_search_values`: alternative account names (dropping the account id), then
alternative account ids (dropping the name), then alternative statement
divisions (keeping both name and id). -/
def altCandidates (df : List Row) (account_nm sj_div : Option String)
    (alt_account_nm_ls : List String) (account_id : Option String)
    (alt_account_id_ls alt_sj_div_ls : List String) :
    List (String × String × String) :=
  alt_account_nm_ls.map (fun nm => searchBase df (some nm) none sj_div)
    ++ alt_account_id_ls.map (fun i => searchBase df none (some i) sj_div)
    ++ alt_sj_div_ls.map (fun d2 => searchBase df account_nm account_id (some d2))

/-- `_search_values`: resolve one financial concept in a slice.  On a primary
match the first matching row's amounts are normalized once by the `finally`
block.  On `IndexError` the alternatives run in order; because the early
`return` statements sit inside the `try`, the `finally` block's own `return`
re-normalizes every fallback result a second time, and when all alternatives
are exhausted the *last* candidate's triple (not necessarily `("", "", "")`)
is re-normalized and returned. -/
def searchValues (df : List Row) (account_nm sj_div : Option String)
    (alt_account_nm_ls : List String) (account_id : Option String)
    (alt_account_id_ls alt_sj_div_ls : List String) :
    String × String × String :=
  match df.find? (rowCond account_nm account_id sj_div) with
  | some r =>
      (preprocessValues r.thstrm_amount, preprocessValues r.frmtrm_amount,
       preprocessValues r.bfefrmtrm_amount)
  | none =>
      altLoop none
        (altCandidates df account_nm sj_div alt_account_nm_ls account_id
          alt_account_id_ls alt_sj_div_ls)

/-- Numeric value of a digit list (most significant first). -/
def digitsVal (ds : List Char) : Nat :=
  ds.foldl (fun n c => 10 * n + (c.toNat - 48)) 0

/-- Python `int(str)`: surrounding whitespace stripped, optional sign, one or
more decimal digits; anything else raises `ValueError` (modelled as `none`).
Underscore digit-grouping is not modelled (never present in the amounts). -/
def parseIntStr (s : String) : Option Int :=
  let cs := s.toList.dropWhile Char.isWhitespace
  let cs := (cs.reverse.dropWhile Char.isWhitespace).reverse
  match cs with
  | [] => none
  | '-' :: ds =>
      if !ds.isEmpty && ds.all Char.isDigit then some (-(digitsVal ds : Int)) else none
  | '+' :: ds =>
      if !ds.isEmpty && ds.all Char.isDigit then some ((digitsVal ds : Int)) else none
  | ds => if ds.all Char.isDigit then some ((digitsVal ds : Int)) else none

/-- Round `num / den` (for `den > 0`) to the nearest integer, ties to even —
the rounding mode of Python `round`.  The source rounds the IEEE double
`int(dept) / int(capital) * 100`; the embedding uses the exact rational
value instead. -/
def roundHalfEvenRat (num den : Int) : Int :=
  let q := num.fdiv den
  let r := num - q * den
  if 2 * r < den then q
  else if den < 2 * r then q + 1
  else if q % 2 = 0 then q else q + 1

/-- Left-pad a string with `'0'` to length `n`. -/
def padLeftZeros (s : String) (n : Nat) : String :=
  String.mk (List.replicate (n - s.length) '0') ++ s

/-- Drop trailing `'0'` characters. -/
def stripTrailingZeros (s : String) : String :=
  String.mk (s.toList.reverse.dropWhile (fun c => c = '0')).reverse

/-- Render `n / 10^4` the way Python `str(round(x, 4))` renders the rounded
float: no trailing zeros in the fraction, but always at least one fractional
digit (`50.0`, not `50`). -/
def formatRound4 (n : Int) : String :=
  let a := n.natAbs
  let ip := a / 10000
  let fp := a % 10000
  let fracDigits := stripTrailingZeros (padLeftZeros (toString fp) 4)
  let frac := if fracDigits = "" then "0" else fracDigits
  (if n < 0 then "-" else "") ++ toString ip ++ "." ++ frac

/-- `_get_financial_dept_ratio`.  The two `assert` statements precede the
`try` block, so an empty input raises `AssertionError` to the caller (the
`except AssertionError` arm is unreachable).  A zero divisor raises
`ZeroDivisionError`, whose handler evaluates the unbound name `e` and thereby
raises `NameError`.  A non-numeric input raises `ValueError` inside the `try`
and is caught by the generic handler, yielding `''`. -/
def getFinancialDeptRatio (capital_total dept_total : String) : Except PyExc String :=
  if capital_total = "" then .error .assertionError
  else if dept_total = "" then .error .assertionError
  else
    match parseIntStr dept_total with
    | none => .ok ""
    | some d =>
      match parseIntStr capital_total with
      | none => .ok ""
      | some c =>
        if c = 0 then .error .nameError
        else .ok (formatRound4 (roundHalfEvenRat (d * 1000000) c))

/-- `_get_net_worth`: asserts precede the `try`, so empty inputs raise
`AssertionError`; non-numeric inputs are caught and yield `''`. -/
def getNetWorth (asset_total dept_total : String) : Except PyExc String :=
  if asset_total = "" then .error .assertionError
  else if dept_total = "" then .error .assertionError
  else
    match parseIntStr asset_total, parseIntStr dept_total with
    | some a, some d => .ok (toString (a - d))
    | _, _ => .ok ""

/-- `_get_quick_asset`: same structure as `_get_net_worth`. -/
def getQuickAsset (current_asset inventories_asset : String) : Except PyExc String :=
  if current_asset = "" then .error .assertionError
  else if inventories_asset = "" then .error .assertionError
  else
    match parseIntStr current_asset, parseIntStr inventories_asset with
    | some a, some d => .ok (toString (a - d))
    | _, _ => .ok ""

/-- `_get_net_working_capital`: same structure as `_get_net_worth`. -/
def getNetWorkingCapital (current_asset current_liabilities : String) :
    Except PyExc String :=
  if current_asset = "" then .error .assertionError
  else if current_liabilities = "" then .error .assertionError
  else
    match parseIntStr current_asset, parseIntStr current_liabilities with
    | some a, some d => .ok (toString (a - d))
    | _, _ => .ok ""

/-- Modelled from the spec: the company-directory lookup
`companies_db.query_companies` is called by `_get_ids` but is not defined
anywhere under `src/`; per §6 the directory maps a company id to
`{biz_num, corporation_num, illu_id}` (dictionary `.get` may yield `None`),
and an unresolvable identity is a lookup failure.  The directory is therefore
a parameter of `preprocess`, with `none` modelling the failure case. -/
structure IdInfo where
  biz_num : Option String
  corporation_num : Option String
  illu_id : Option String
deriving Repr, DecidableEq

/-- `NewCompanyFinancePydantic`: one canonical financial record as constructed
by `preprocess` (the fields it sets). -/
structure PRecord where
  company_id : String
  biz_num : Option String
  corporation_num : Option String
  illu_id : Option String
  acct_dt : String
  financial_decide_code : String
  financial_decide_desc : String
  sales : String
  sales_cost : String
  operating_profit : String
  net_profit : String
  capital_amount : String
  capital_total : String
  debt_total : String
  asset_total : String
  comprehensive_income : String
  financial_debt_ratio : String
  tangible_asset : String
  non_tangible_asset : String
  current_asset : String
  non_current_asset : String
  current_liabilities : String
  net_worth : String
  quick_asset : String
  inventories_asset : String
  accounts_payable : String
  trade_receivable : String
  short_term_loan : String
  net_working_capital : String
  selling_general_administrative_expenses : String
deriving Repr, DecidableEq

/-- Helper for `uniqueKeep`: keep the elements not seen before, in order. -/
def uniqueKeepAux (seen : List String) : List String → List String
  | [] => []
  | x :: xs =>
    if seen.contains x then uniqueKeepAux seen xs
    else x :: uniqueKeepAux (x :: seen) xs

/-- `pandas.Series.unique`: distinct values in order of first appearance. -/
def uniqueKeep (l : List String) : List String :=
  uniqueKeepAux [] l

/-- The slice `df.loc[(df['bsns_year'] == year) & (df['fs_div'] == fs)]`. -/
def sliceOf (df : List Row) (y fs : String) : List Row :=
  df.filter (fun r => r.bsns_year == y && r.fs_div == fs)

/-- The iteration order of the two nested loops of `preprocess`:
every `(year, fs_div)` pair of the cross product of the distinct business
years and the distinct statement kinds, years outermost. -/
def slicePairs (df : List Row) : List (String × String) :=
  (uniqueKeep (df.map Row.bsns_year)).flatMap
    (fun y => (uniqueKeep (df.map Row.fs_div)).map (fun fs => (y, fs)))

/-- Line 242 of the source evaluates `thstrm_inventories_asset` (and its two
siblings) one statement before line 243 assigns them; reading the unbound
local raises `UnboundLocalError`. -/
def unboundLocalRead : Except PyExc String :=
  Except.error PyExc.unboundLocalError

/-- Python exception propagation: a raised exception skips the rest of the
statement sequence; a normal value flows into it. -/
def pyBind {α β : Type} (x : Except PyExc α) (f : α → Except PyExc β) :
    Except PyExc β :=
  match x with
  | .error e => .error e
  | .ok v => f v

/-- The body of the per-`(year, fs_div)` loop of `preprocess`, for one slice:
resolve every canonical metric, derive the computed metrics in source
statement order, and build the three time-offset records.  A raised exception
is propagated as `Except.error` (the source lets it travel to the outermost
handler of `preprocess`). -/
def processSlice (company_id : String) (ids : IdInfo) (year : String)
    (sdf : List Row) : Except PyExc (List PRecord) :=
  match sdf.head? with
  | none => .error .indexOrKeyError
  | some r0 =>
    let financial_decide_code := r0.fs_div
    let financial_decide_desc := r0.fs_nm
    match parseIntStr year with
    | none => .error .valueError
    | some y =>
      let thstrm_year := year
      let frmtrm_year := toString (y - 1)
      let bfefrmtrm_year := toString (y - 2)
      let sales := searchValues sdf none (some "CIS") [] (some "ifrs-full_Revenue") [] []
      let sales_cost := searchValues sdf none (some "CIS") ["매출원가"] (some "ifrs-full_CostOfSales") [] []
      let operating_profit := searchValues sdf none (some "CIS") [] (some "dart_OperatingIncomeLoss") [] ["IS"]
      let net_profit := searchValues sdf none (some "CIS") [] (some "ifrs-full_ProfitLoss") [] []
      let capital_amount := searchValues sdf (some "자본금") (some "BS") [] none [] []
      let capital_total := searchValues sdf (some "자본총계") (some "BS") [] none [] []
      let dept_total := searchValues sdf (some "부채총계") (some "BS") [] none [] []
      let assets_total := searchValues sdf (some "자산총계") (some "BS") [] none [] []
      pyBind (getFinancialDeptRatio capital_total.1 dept_total.1) fun thstrm_ratio =>
      pyBind (getFinancialDeptRatio capital_total.2.1 dept_total.2.1) fun frmtrm_ratio =>
      pyBind (getFinancialDeptRatio capital_total.2.2 dept_total.2.2) fun bfefrmtrm_ratio =>
      let comprehensive_income := searchValues sdf none (some "CIS") [] (some "ifrs-full_ComprehensiveIncome") [] []
      let tangible_asset := searchValues sdf (some "유형자산") (some "BS") [] none [] []
      let none_tangible_asset := searchValues sdf none (some "BS") [] (some "ifrs-full_IntangibleAssetsOtherThanGoodwill") ["dart_OtherIntangibleAssetsGross", "dart_GoodwillGross"] []
      let current_asset := searchValues sdf (some "유동자산") (some "BS") [] none [] []
      let none_current_asset := searchValues sdf (some "비유동자산") (some "BS") [] none [] []
      let current_liabilities := searchValues sdf (some "유동부채") (some "BS") [] none [] []
      pyBind (getNetWorth assets_total.1 dept_total.1) fun thstrm_net_worth =>
      pyBind (getNetWorth assets_total.2.1 dept_total.2.1) fun frmtrm_net_worth =>
      pyBind (getNetWorth assets_total.2.2 dept_total.2.2) fun bfefrmtrm_net_worth =>
      pyBind unboundLocalRead fun thstrm_inv_read =>
      pyBind (getQuickAsset current_asset.1 thstrm_inv_read) fun thstrm_quick_asset =>
      pyBind unboundLocalRead fun frmtrm_inv_read =>
      pyBind (getQuickAsset current_asset.2.1 frmtrm_inv_read) fun frmtrm_quick_asset =>
      pyBind unboundLocalRead fun bfefrmtrm_inv_read =>
      pyBind (getQuickAsset current_asset.2.2 bfefrmtrm_inv_read) fun bfefrmtrm_quick_asset =>
      let inventories_asset := searchValues sdf (some "재고자산") (some "BS") [] none [] []
      let accounts_payable := searchValues sdf none (some "BS") [] (some "ifrs-full_TradeAndOtherCurrentPayables") ["dart_ShortTermTradePayables"] []
      let trade_receivable := searchValues sdf none (some "BS") [] (some "ifrs-full_TradeAndOtherCurrentReceivables") ["dart_ShortTermTradeReceivable"] []
      let short_term_loan := searchValues sdf none (some "BS") ["단기차입금"] (some "ifrs-full_ShorttermBorrowings") [] []
      pyBind (getNetWorkingCapital current_asset.1 current_liabilities.1) fun thstrm_networking_capital =>
      pyBind (getNetWorkingCapital current_asset.2.1 current_liabilities.2.1) fun frmtrm_networking_capital =>
      pyBind (getNetWorkingCapital current_asset.2.2 current_liabilities.2.2) fun bfefrmtrm_networking_capital =>
      let sga := searchValues sdf none (some "CIS") [] (some "dart_TotalSellingGeneralAdministrativeExpenses") [] ["IS"]
      .ok
        [{ company_id := company_id, biz_num := ids.biz_num,
           corporation_num := ids.corporation_num, illu_id := ids.illu_id,
           acct_dt := thstrm_year,
           financial_decide_code := financial_decide_code,
           financial_decide_desc := financial_decide_desc,
           sales := sales.1, sales_cost := sales_cost.1,
           operating_profit := operating_profit.1, net_profit := net_profit.1,
           capital_amount := capital_amount.1, capital_total := capital_total.1,
           debt_total := dept_total.1, asset_total := assets_total.1,
           comprehensive_income := comprehensive_income.1,
           financial_debt_ratio := thstrm_ratio,
           tangible_asset := tangible_asset.1,
           non_tangible_asset := none_tangible_asset.1,
           current_asset := current_asset.1,
           non_current_asset := none_current_asset.1,
           current_liabilities := current_liabilities.1,
           net_worth := thstrm_net_worth, quick_asset := thstrm_quick_asset,
           inventories_asset := inventories_asset.1,
           accounts_payable := accounts_payable.1,
           trade_receivable := trade_receivable.1,
           short_term_loan := short_term_loan.1,
           net_working_capital := thstrm_networking_capital,
           selling_general_administrative_expenses := sga.1 },
         { company_id := company_id, biz_num := ids.biz_num,
           corporation_num := ids.corporation_num, illu_id := ids.illu_id,
           acct_dt := frmtrm_year,
           financial_decide_code := financial_decide_code,
           financial_decide_desc := financial_decide_desc,
           sales := sales.2.1, sales_cost := sales_cost.2.1,
           operating_profit := operating_profit.2.1, net_profit := net_profit.2.1,
           capital_amount := capital_amount.2.1, capital_total := capital_total.2.1,
           debt_total := dept_total.2.1, asset_total := assets_total.2.1,
           comprehensive_income := comprehensive_income.2.1,
           financial_debt_ratio := frmtrm_ratio,
           tangible_asset := tangible_asset.2.1,
           non_tangible_asset := none_tangible_asset.2.1,
           current_asset := current_asset.2.1,
           non_current_asset := none_current_asset.2.1,
           current_liabilities := current_liabilities.2.1,
           net_worth := frmtrm_net_worth, quick_asset := frmtrm_quick_asset,
           inventories_asset := inventories_asset.2.1,
           accounts_payable := accounts_payable.2.1,
           trade_receivable := trade_receivable.2.1,
           short_term_loan := short_term_loan.2.1,
           net_working_capital := frmtrm_networking_capital,
           selling_general_administrative_expenses := sga.2.1 },
         { company_id := company_id, biz_num := ids.biz_num,
           corporation_num := ids.corporation_num, illu_id := ids.illu_id,
           acct_dt := bfefrmtrm_year,
           financial_decide_code := financial_decide_code,
           financial_decide_desc := financial_decide_desc,
           sales := sales.2.2, sales_cost := sales_cost.2.2,
           operating_profit := operating_profit.2.2, net_profit := net_profit.2.2,
           capital_amount := capital_amount.2.2, capital_total := capital_total.2.2,
           debt_total := dept_total.2.2, asset_total := assets_total.2.2,
           comprehensive_income := comprehensive_income.2.2,
           financial_debt_ratio := bfefrmtrm_ratio,
           tangible_asset := tangible_asset.2.2,
           non_tangible_asset := none_tangible_asset.2.2,
           current_asset := current_asset.2.2,
           non_current_asset := none_current_asset.2.2,
           current_liabilities := current_liabilities.2.2,
           net_worth := bfefrmtrm_net_worth, quick_asset := bfefrmtrm_quick_asset,
           inventories_asset := inventories_asset.2.2,
           accounts_payable := accounts_payable.2.2,
           trade_receivable := trade_receivable.2.2,
           short_term_loan := short_term_loan.2.2,
           net_working_capital := bfefrmtrm_networking_capital,
           selling_general_administrative_expenses := sga.2.2 }]

instance {ε α : Type} [DecidableEq ε] [DecidableEq α] : DecidableEq (Except ε α) :=
  fun a b =>
    match a, b with
    | .error e, .error f => decidable_of_iff (e = f) (by simp)
    | .ok x, .ok y => decidable_of_iff (x = y) (by simp)
    | .error _, .ok _ => .isFalse (by simp)
    | .ok _, .error _ => .isFalse (by simp)

/-- The fan-out over the `(year, fs_div)` pairs, in iteration order: the first
raised exception aborts the whole pass; records of completed slices accumulate
only while no exception has occurred. -/
def processAll (company_id : String) (ids : IdInfo) (df : List Row) :
    List (String × String) → Except PyExc (List PRecord)
  | [] => .ok []
  | (y, fs) :: rest =>
    match processSlice company_id ids y (sliceOf df y fs) with
    | .error e => .error e
    | .ok recs =>
      match processAll company_id ids df rest with
      | .error e => .error e
      | .ok more => .ok (recs ++ more)

/-- `preprocess`: read the first row's company id (`df['company_id'][0]`
raises on an empty table), resolve the company identity, run the fan-out, and
map any raised exception to `none` in the outermost handler — discarding every
already-assembled record. -/
def preprocess (directory : String → Option IdInfo) (df : List Row) :
    Option (List PRecord) :=
  match df.head? with
  | none => none
  | some r0 =>
    match directory r0.company_id with
    | none => none
    | some ids =>
      match processAll r0.company_id ids df (slicePairs df) with
      | .error _ => none
      | .ok recs => some recs

/-- Declarative characterization of the fallback phase of `_search_values`,
written from the observed control flow: the first candidate whose
(once-normalized) current-period amount is non-empty is re-normalized and
returned; with no such candidate the *last* candidate is re-normalized and
returned; with no candidates at all the result is `("", "", "")`. -/
def altResult (st : Option (String × String × String))
    (cands : List (String × String × String)) : String × String × String :=
  match cands.find? (fun t => t.1 != "") with
  | some t => normTriple (some t)
  | none =>
    match cands.getLast? with
    | some t => normTriple (some t)
    | none => normTriple st

/-- Fixture builder: a raw line item of one fixed company/year/statement-kind
slice. -/
def mkRow (nm id dv tn : String) (ta fa ba : Option String) : Row :=
  { company_id := "c1", bsns_year := "2023", fs_div := "OFS",
    fs_nm := "별도재무제표", sj_div := dv, account_nm := nm, account_id := id,
    thstrm_nm := tn, thstrm_amount := ta, frmtrm_amount := fa,
    bfefrmtrm_amount := ba }

/-- The end-to-end scenario table of §8: one 자본총계 and one 부채총계
balance-sheet row, current amounts only, prior amounts absent. -/
def tblC1 : List Row :=
  [mkRow "자본총계" "" "BS" "제 10 기" (some "1000000") none none,
   mkRow "부채총계" "" "BS" "제 10 기" (some "500000") none none]

/-- A directory that resolves every company id. -/
def dirAll : String → Option IdInfo :=
  fun _ => some { biz_num := some "b", corporation_num := some "c", illu_id := some "i" }

/-- A slice on which every base metric needed before line 242 resolves with
non-empty numeric amounts for all three periods, so the per-slice body runs
past the derived-metric calls and reaches the quick-asset statement. -/
def fullSliceC2 : List Row :=
  [mkRow "자본총계" "" "BS" "제 10 기" (some "1000000") (some "1000000") (some "1000000"),
   mkRow "부채총계" "" "BS" "제 10 기" (some "500000") (some "500000") (some "500000"),
   mkRow "자산총계" "" "BS" "제 10 기" (some "1500000") (some "1500000") (some "1500000")]

/-- One-row table for the C2 witness. -/
def tblC2 : List Row :=
  [mkRow "자본총계" "" "BS" "제 10 기" (some "1000000") none none]

/-- Table with one alternative-name row whose three raw amounts are
`"1000000"`. -/
def dfC4 : List Row :=
  [mkRow "Y" "" "BS" "제 3 기" (some "1000000") (some "1000000") (some "1000000")]

/-- Table with one alternative-name row whose current amount is absent but
whose prior amount is `"5000000"`. -/
def dfC5 : List Row :=
  [mkRow "Y" "" "BS" "제 3 기" none (some "5000000") none]

/-- Table with a row for alias `Y` but none for alias `Z`. -/
def dfC6 : List Row :=
  [mkRow "Y" "" "BS" "제 3 기" (some "2000000") (some "3000000") (some "4000000")]

/-- The first (and matching) row of the C9 table. -/
def rowC9 : Row :=
  mkRow "자본총계" "" "BS" "제 10 기" (some "7000000") (some "8000000") none

/-- Table whose primary filter matches its first row. -/
def dfC9 : List Row :=
  [rowC9, mkRow "자본총계" "" "BS" "제 9 기" (some "111000") none none]

/-- The head row of the C8 witness table. -/
def rowC8 : Row :=
  mkRow "부채총계" "" "BS" "제 2 기" (some "9000000") none none

/-- One-row table for the C8 witness. -/
def tblC8 : List Row := [rowC8]

theorem pyBind_ne_ok {α β : Type} (x : Except PyExc α) (f : α → Except PyExc β)
    (l : β) (h : ∀ v, f v ≠ Except.ok l) : pyBind x f ≠ Except.ok l := by
  cases x with
  | error e => simp [pyBind]
  | ok v => simpa [pyBind] using h v

theorem processSlice_ne_ok (c : String) (ids : IdInfo) (y : String) (sdf : List Row)
    (l : List PRecord) : processSlice c ids y sdf ≠ Except.ok l := by
  unfold processSlice
  split
  · simp
  · split
    · simp
    · dsimp only
      apply pyBind_ne_ok; intro v1
      apply pyBind_ne_ok; intro v2
      apply pyBind_ne_ok; intro v3
      apply pyBind_ne_ok; intro v4
      apply pyBind_ne_ok; intro v5
      apply pyBind_ne_ok; intro v6
      simp [unboundLocalRead, pyBind]

theorem preprocess_eq_none (dir : String → Option IdInfo) (df : List Row) :
    preprocess dir df = none := by
  cases df with
  | nil => rfl
  | cons r0 rest =>
    unfold preprocess
    simp only [List.head?_cons]
    cases hdir : dir r0.company_id with
    | none => rfl
    | some ids =>
      obtain ⟨t, ht⟩ : ∃ t, slicePairs (r0 :: rest) = (r0.bsns_year, r0.fs_div) :: t :=
        ⟨_, rfl⟩
      rw [ht]
      cases hps : processSlice r0.company_id ids r0.bsns_year
          (sliceOf (r0 :: rest) r0.bsns_year r0.fs_div) with
      | error e => simp [processAll, hps]
      | ok recs => exact absurd hps (processSlice_ne_ok _ _ _ _ _)

theorem altLoop_eq_altResult (cands : List (String × String × String)) :
    ∀ st : Option (String × String × String),
      altLoop st cands = altResult st cands := by
  induction cands with
  | nil => intro st; rfl
  | cons t rest ih =>
    intro st
    rcases h : (t.1 != "") with _ | _
    · have hloop : altLoop st (t :: rest) = altLoop (some t) rest := by
        simp [altLoop, h]
      rw [hloop, ih (some t)]
      unfold altResult
      rw [List.find?_cons_of_neg _ (by simp [h])]
      cases hf : rest.find? (fun u => u.1 != "") with
      | some u => simp
      | none =>
        simp only
        cases rest with
        | nil => simp [List.getLast?]
        | cons u us =>
          cases hl : (u :: us).getLast? with
          | some v => simp [hl]
          | none => simp [List.getLast?_eq_none_iff] at hl
    · have hloop : altLoop st (t :: rest) = normTriple (some t) := by
        simp [altLoop, h]
      rw [hloop]
      unfold altResult
      rw [List.find?_cons_of_pos _ (by simp [h])]

theorem searchValues_no_alt (df : List Row) (annm aid dv : Option String) :
    searchValues df annm dv [] aid [] [] = searchBase df annm aid dv := by
  unfold searchValues searchBase altCandidates
  cases df.find? (rowCond annm aid dv) <;> rfl

theorem altLoop_skip_empty (cs : List (String × String × String)) :
    altLoop (some ("", "", "")) cs = altLoop none cs := by
  cases cs <;> rfl

/-- Claim C1 (code bug): on the §8 scenario table the full preprocessing call
returns `none` instead of emitting a record whose current-period debt ratio is
`"50.0"`.  The debt-ratio computation itself, reached with the normalized
current-period amounts, does yield `"50.0"`; the call dies because the
prior-period derivation is invoked with empty inputs and the asserts sit
before the `try` block (and, had it survived that, line 242's unbound-local
read). -/
theorem scenario_debt_ratio_returns_none :
    preprocess dirAll tblC1 = none ∧
      getFinancialDeptRatio (preprocessValues (some "1000000"))
        (preprocessValues (some "500000")) = Except.ok "50.0" := by
  constructor
  · exact preprocess_eq_none dirAll tblC1
  · decide

/-- Claim C2 (confirmed): for every table with at least one row, `preprocess`
returns `none` and never a record list; on a slice where every earlier
derivation succeeds, the failure is precisely the unbound-local read of the
inventories variables at the quick-asset statement. -/
theorem preprocess_always_none_on_nonempty (dir : String → Option IdInfo)
    (df : List Row) (_h : df ≠ []) :
    preprocess dir df = none ∧
      processSlice "c1"
        { biz_num := some "b", corporation_num := some "c", illu_id := some "i" }
        "2022" fullSliceC2 = Except.error PyExc.unboundLocalError :=
  ⟨preprocess_eq_none dir df, by decide⟩

theorem preprocess_always_none_on_nonempty_witness :
    tblC2 ≠ [] ∧
      (preprocess dirAll tblC2 = none ∧
        processSlice "c1"
          { biz_num := some "b", corporation_num := some "c", illu_id := some "i" }
          "2022" fullSliceC2 = Except.error PyExc.unboundLocalError) :=
  ⟨by decide, preprocess_always_none_on_nonempty dirAll tblC2 (by decide)⟩

/-- Claim C3 (code bug): each derived-metric function raises
`AssertionError` to its caller when an input is the canonical-empty string
(the asserts precede the `try`), and the debt ratio raises `NameError` on a
zero divisor (its `ZeroDivisionError` handler evaluates the unbound name
`e`); only the non-numeric case actually fails closed with `""`. -/
theorem derived_metrics_raise_on_empty_or_zero :
    getFinancialDeptRatio "" "500" = Except.error PyExc.assertionError ∧
    getFinancialDeptRatio "500" "" = Except.error PyExc.assertionError ∧
    getNetWorth "" "300" = Except.error PyExc.assertionError ∧
    getQuickAsset "" "100" = Except.error PyExc.assertionError ∧
    getNetWorkingCapital "" "100" = Except.error PyExc.assertionError ∧
    getFinancialDeptRatio "0" "500" = Except.error PyExc.nameError ∧
    getFinancialDeptRatio "abc" "500" = Except.ok "" := by
  decide

/-- Claim C4 counterexample: with the alternative row's raw amounts all
`"1000000"`, the triple the caller receives is `("1", "1", "1")`, not the
once-normalized `("1000", "1000", "1000")`: each position lost six characters,
not three. -/
theorem alias_triple_double_normalized_cex :
    searchValues dfC4 (some "X") (some "BS") ["Y"] none [] [] = ("1", "1", "1") ∧
      searchValues dfC4 (some "X") (some "BS") ["Y"] none [] [] ≠
        (preprocessValues (some "1000000"), preprocessValues (some "1000000"),
         preprocessValues (some "1000000")) := by
  decide

/-- Claim C4 (amended): when the primary filter selects no row and the first
alternative name's lookup has a non-empty once-normalized current amount,
resolve returns that alternative's triple normalized a second time by the
`finally` block — each position loses three further characters. -/
theorem alias_first_alt_double_normalized (df : List Row)
    (annm dv aid : Option String) (nm : String) (altN altI altD : List String)
    (h1 : df.find? (rowCond annm aid dv) = none)
    (h2 : (searchBase df (some nm) none dv).1 ≠ "") :
    searchValues df annm dv (nm :: altN) aid altI altD =
      normTriple (some (searchBase df (some nm) none dv)) := by
  unfold searchValues
  rw [h1]
  simp only [altCandidates, List.map_cons, List.cons_append, altLoop]
  simp [h2]

theorem alias_first_alt_double_normalized_witness :
    dfC4.find? (rowCond (some "X") none (some "BS")) = none ∧
      (searchBase dfC4 (some "Y") none (some "BS")).1 ≠ "" ∧
      searchValues dfC4 (some "X") (some "BS") ["Y"] none [] [] =
        normTriple (some (searchBase dfC4 (some "Y") none (some "BS"))) :=
  ⟨by decide, by decide,
    alias_first_alt_double_normalized dfC4 (some "X") (some "BS") none "Y" [] [] []
      (by decide) (by decide)⟩

/-- Claim C5 counterexample: all alternatives exhausted (the only candidate's
current-period amount is empty), yet resolve returns `("", "5", "")` — the
last candidate's re-normalized triple — not `("", "", "")`. -/
theorem fallback_exhausted_not_empty_cex :
    searchValues dfC5 (some "X") (some "BS") ["Y"] none [] [] = ("", "5", "") ∧
      searchValues dfC5 (some "X") (some "BS") ["Y"] none [] [] ≠ ("", "", "") := by
  decide

/-- Claim C5 (amended): when the primary filter selects no row, the
alternatives are tried strictly in the order alternative names, then
alternative ids, then alternative divisions; the result is the first
candidate whose once-normalized current amount is non-empty, normalized a
second time — and if no candidate qualifies, the *last* candidate's triple
normalized a second time (whose prior positions may be non-empty), or
`("", "", "")` when there are no alternatives at all. -/
theorem fallback_order_characterization (df : List Row)
    (annm dv aid : Option String) (altN altI altD : List String)
    (h : df.find? (rowCond annm aid dv) = none) :
    searchValues df annm dv altN aid altI altD =
      altResult none (altCandidates df annm dv altN aid altI altD) := by
  unfold searchValues
  rw [h]
  exact altLoop_eq_altResult _ none

theorem fallback_order_characterization_witness :
    dfC5.find? (rowCond (some "X") none (some "BS")) = none ∧
      searchValues dfC5 (some "X") (some "BS") ["Y"] none [] [] =
        altResult none (altCandidates dfC5 (some "X") (some "BS") ["Y"] none [] []) :=
  ⟨by decide,
    fallback_order_characterization dfC5 (some "X") (some "BS") none ["Y"] [] []
      (by decide)⟩

/-- Claim C6 (confirmed): a candidate whose own lookup fails (its filter
selects no row, the `IndexError` case) is treated as no-match and the search
behaves exactly as if that candidate were skipped; the function is total and
always returns a triple of strings, never propagating an exception. -/
theorem failing_candidate_falls_through (df : List Row)
    (annm dv aid : Option String) (nm1 : String) (restN altI altD : List String)
    (h : df.find? (rowCond (some nm1) none dv) = none) :
    searchValues df annm dv (nm1 :: restN) aid altI altD =
      searchValues df annm dv restN aid altI altD := by
  unfold searchValues
  cases hp : df.find? (rowCond annm aid dv) with
  | some r => rfl
  | none =>
    have hb : searchBase df (some nm1) none dv = ("", "", "") := by
      unfold searchBase; rw [h]
    simp only [altCandidates, List.map_cons, List.cons_append, hb]
    have hstep : altLoop none (("", "", "") ::
        (restN.map (fun nm => searchBase df (some nm) none dv)
          ++ altI.map (fun i => searchBase df none (some i) dv)
          ++ altD.map (fun d2 => searchBase df annm aid (some d2)))) =
        altLoop (some ("", "", ""))
        (restN.map (fun nm => searchBase df (some nm) none dv)
          ++ altI.map (fun i => searchBase df none (some i) dv)
          ++ altD.map (fun d2 => searchBase df annm aid (some d2))) := rfl
    rw [hstep, altLoop_skip_empty]

theorem failing_candidate_falls_through_witness :
    dfC6.find? (rowCond (some "Z") none (some "BS")) = none ∧
      searchValues dfC6 (some "X") (some "BS") ["Z", "Y"] none [] [] =
        searchValues dfC6 (some "X") (some "BS") ["Y"] none [] [] :=
  ⟨by decide,
    failing_candidate_falls_through dfC6 (some "X") (some "BS") none "Z" ["Y"] [] []
      (by decide)⟩

/-- Claim C7 (confirmed): for a raw amount string of length at least three,
normalize removes exactly its last three characters (the output is a prefix
and the dropped suffix has length three); absent and empty inputs map to
`""`; the embedding is total, as the slice expression cannot raise. -/
theorem normalize_truncates_last_three (s : String) (h : 3 ≤ s.toList.length) :
    (∃ t : List Char, t.length = 3 ∧
        s.toList = (preprocessValues (some s)).toList ++ t)
    ∧ preprocessValues none = "" ∧ preprocessValues (some "") = "" := by
  refine ⟨?_, rfl, rfl⟩
  have hs : s ≠ "" := by
    intro he
    subst he
    exact absurd h (by decide)
  have hv : preprocessValues (some s) = pySliceDropLast3 s := by
    simp [preprocessValues, preprocessStr, hs]
  rw [hv]
  refine ⟨s.toList.drop (s.toList.length - 3), ?_, ?_⟩
  · rw [List.length_drop]
    omega
  · have hm : (pySliceDropLast3 s).toList =
        s.toList.take (s.toList.length - 3) := rfl
    rw [hm, List.take_append_drop]

theorem normalize_truncates_last_three_witness :
    3 ≤ ("1000000" : String).toList.length ∧
      ((∃ t : List Char, t.length = 3 ∧
          ("1000000" : String).toList =
            (preprocessValues (some "1000000")).toList ++ t)
        ∧ preprocessValues none = "" ∧ preprocessValues (some "") = "") :=
  ⟨by decide, normalize_truncates_last_three "1000000" (by decide)⟩

/-- Claim C8 (confirmed): if the company identity of the table's first row
cannot be resolved, `preprocess` returns `none`; and whenever the fan-out
over the slices raises any exception, `preprocess` returns `none`, discarding
every record assembled for earlier slices. -/
theorem abort_discards_partial_output (dir : String → Option IdInfo)
    (df : List Row) (r0 : Row) (h0 : df.head? = some r0) :
    (dir r0.company_id = none → preprocess dir df = none) ∧
    (∀ ids : IdInfo, dir r0.company_id = some ids →
      ∀ e : PyExc,
        processAll r0.company_id ids df (slicePairs df) = Except.error e →
          preprocess dir df = none) := by
  constructor
  · intro hd
    unfold preprocess
    rw [h0]
    dsimp only
    rw [hd]
  · intro ids hd e he
    unfold preprocess
    rw [h0]
    dsimp only
    rw [hd]
    dsimp only
    rw [he]

theorem abort_discards_partial_output_witness :
    tblC8.head? = some rowC8 ∧ preprocess (fun _ => none) tblC8 = none :=
  ⟨rfl, (abort_discards_partial_output (fun _ => none) tblC8 rowC8 rfl).1 rfl⟩

/-- Claim C9 (confirmed): when the filter (name-or-id match, period-label
pattern, division) selects at least one row, resolve returns the three period
amounts of the first matching row in table order, each normalized once,
whatever the alternative lists are. -/
theorem primary_match_first_row_normalized (df : List Row)
    (annm dv aid : Option String) (altN altI altD : List String) (r : Row)
    (h : df.find? (rowCond annm aid dv) = some r) :
    searchValues df annm dv altN aid altI altD =
      (preprocessValues r.thstrm_amount, preprocessValues r.frmtrm_amount,
       preprocessValues r.bfefrmtrm_amount) := by
  unfold searchValues
  rw [h]

theorem primary_match_first_row_normalized_witness :
    dfC9.find? (rowCond (some "자본총계") none (some "BS")) = some rowC9 ∧
      searchValues dfC9 (some "자본총계") (some "BS") [] none [] [] =
        (preprocessValues rowC9.thstrm_amount, preprocessValues rowC9.frmtrm_amount,
         preprocessValues rowC9.bfefrmtrm_amount) :=
  ⟨by decide,
    primary_match_first_row_normalized dfC9 (some "자본총계") (some "BS") none [] [] []
      rowC9 (by decide)⟩

/-- Claim C10 (confirmed): resolution is a pure function of its arguments —
two calls with equal table (same row order) and equal lookup arguments return
equal triples; no other state enters the embedding. -/
theorem resolve_deterministic (df df' : List Row)
    (annm annm' dv dv' aid aid' : Option String)
    (altN altN' altI altI' altD altD' : List String)
    (h : df = df' ∧ annm = annm' ∧ dv = dv' ∧ aid = aid' ∧
      altN = altN' ∧ altI = altI' ∧ altD = altD') :
    searchValues df annm dv altN aid altI altD =
      searchValues df' annm' dv' altN' aid' altI' altD' := by
  obtain ⟨h1, h2, h3, h4, h5, h6, h7⟩ := h
  subst h1 h2 h3 h4 h5 h6 h7
  rfl

theorem resolve_deterministic_witness :
    searchValues dfC9 (some "자본총계") (some "BS") [] none [] [] =
      searchValues dfC9 (some "자본총계") (some "BS") [] none [] [] :=
  resolve_deterministic dfC9 dfC9 (some "자본총계") (some "자본총계")
    (some "BS") (some "BS") none none [] [] [] [] [] []
    ⟨rfl, rfl, rfl, rfl, rfl, rfl, rfl⟩

end DartFinance
